import Mathlib

/-!
Shallow embedding of the scan registry (`src/ospd/scan.py`) and of the
`start_scan` command handler (`src/ospd/command/command.py`) of the ospd
daemon, together with theorems checking the natural-language specification
against this embedding.

Modelling conventions:
* Python dicts with string keys become association lists
  (`List (String × _)`) with Python assignment/deletion semantics
  (`dictSet`, `dictDel`).
* Operations that can raise (`KeyError` on a missing scan id, `ValueError`
  from `list.remove`, a failed `assert`) return `Option` or `Except`
  values; `none` / `.error` marks the raising executions.
* Host-range expressions (`target['hosts']` and friends) are represented by
  their expanded ordered host lists; see `target_str_to_list`.
* Wall-clock reads (`int(time.time())`) take the current time as an
  explicit `now : Nat` argument, and `uuid.uuid4()` takes the generated
  string as an explicit `fresh_uuid` argument.
* Reading a field of a `multiprocessing` manager-dict proxy yields a local
  copy; only assigning `scans_table[scan_id][field] = value` updates the
  shared record.  In the embedding the `ScanCollection` value is the shared
  state, local `let`s are the local copies, and `setInfo` / `updateInfo`
  are the proxy field assignments.
-/

namespace Ospd

/-- `ScanStatus` enumeration from `ospd/scan.py`. -/
inductive ScanStatus where
  | INIT
  | RUNNING
  | STOPPED
  | FINISHED
  deriving DecidableEq, Repr

/-- One result record as built by `ScanCollection.add_result`
(`ospd/scan.py` lines 85-94); the Python `result['type']` entry is called
`rtype` here because `type` reads badly in Lean. -/
structure Result where
  rtype : Int
  name : String
  severity : String
  test_id : String
  value : String
  host : String
  hostname : String
  port : String
  qod : String
  deriving DecidableEq, Repr

/-- Scan-level options / scanner-params dictionaries (string keyed; values
kept as strings). -/
abbrev Options := List (String × String)

/-- VT-selection dictionary (VT id, parameter overrides as a string). -/
abbrev VTs := List (String × String)

/-- The `target` dictionary of a scan, with the fields that `ospd/scan.py`
reads via `target.get(...)`.  The host-range expressions (`hosts`,
`exclude_hosts`, `finished_hosts`) are represented by their expanded
ordered host lists. -/
structure ScanTarget where
  hosts : List String
  ports : String
  exclude_hosts : List String
  finished_hosts : List String
  credentials : List (String × String)
  options : List (String × String)
  deriving DecidableEq, Repr

/-- The empty target dict (`target = {}` in `create_scan`). -/
def emptyScanTarget : ScanTarget := ⟨[], "", [], [], [], []⟩

/-- One `scan_info` record (`ospd/scan.py` lines 262-277).  `vts` is an
`Option` because Python may store `None` there. -/
structure ScanInfo where
  results : List Result
  finished_hosts : List String
  progress : Int
  target_progress : List (String × Int)
  target : ScanTarget
  vts : Option VTs
  options : Options
  start_time : Nat
  end_time : Nat
  status : ScanStatus
  scan_id : String
  deriving DecidableEq, Repr

/-- `ScanCollection.__init__` state: `data_manager` records whether the
`multiprocessing` manager is allocated (`None` ↔ `false`), `scans_table`
is the scan-id-keyed table of records. -/
structure ScanCollection where
  data_manager : Bool
  scans_table : List (String × ScanInfo)
  deriving DecidableEq, Repr

/-- Python dict assignment `t[k] = v`: replace the value of an existing key
in place, otherwise append the new key at the end. -/
def dictSet {α : Type} : List (String × α) → String → α → List (String × α)
  | [], k, v => [(k, v)]
  | (a, b) :: rest, k, v =>
    if a = k then (k, v) :: rest else (a, b) :: dictSet rest k v

/-- Python dict deletion `del t[k]` / `t.pop(k)` (keys are unique in every
state the daemon builds). -/
def dictDel {α : Type} (t : List (String × α)) (k : String) : List (String × α) :=
  t.filter (fun p => p.1 != k)

/-- Read one scan record of the shared table (`self.scans_table[scan_id]`
as an r-value; `none` is the `KeyError` case). -/
def getScan (c : ScanCollection) (scan_id : String) : Option ScanInfo :=
  c.scans_table.lookup scan_id

/-- Store one whole scan record into the shared table. -/
def setInfo (c : ScanCollection) (scan_id : String) (info : ScanInfo) : ScanCollection :=
  { c with scans_table := dictSet c.scans_table scan_id info }

/-- `self.scans_table[scan_id][field] = value`: raises `KeyError` (`none`)
when the scan id is missing, otherwise stores the record with the field
replaced. -/
def updateInfo (c : ScanCollection) (scan_id : String) (f : ScanInfo → ScanInfo) :
    Option ScanCollection :=
  match c.scans_table.lookup scan_id with
  | none => none
  | some info => some (setInfo c scan_id (f info))

/-- `ScanCollection.add_result` (`ospd/scan.py` 67-99): asserts a non-empty
`scan_id` and a non-empty `name` or `value`, builds the result record,
appends it to a copy of the `results` list and writes the whole list back
into the scan record. -/
def add_result (c : ScanCollection) (scan_id : String) (result_type : Int)
    (host hostname name value port test_id severity qod : String) :
    Option ScanCollection :=
  if scan_id = "" then none
  else if name = "" ∧ value = "" then none
  else
    match c.scans_table.lookup scan_id with
    | none => none
    | some info =>
      let result : Result :=
        { rtype := result_type, name := name, severity := severity,
          test_id := test_id, value := value, host := host,
          hostname := hostname, port := port, qod := qod }
      let results := info.results
      let results := results ++ [result]
      some (setInfo c scan_id { info with results := results })

/-- `ScanCollection.remove_hosts_from_target_progress` (`ospd/scan.py`
101-116): deletes each listed host that is present from a copy of the
per-host progress dict, then writes the dict back. -/
def remove_hosts_from_target_progress (c : ScanCollection) (scan_id : String)
    (hosts : List String) : Option ScanCollection :=
  if hosts = [] then some c
  else
    match c.scans_table.lookup scan_id with
    | none => none
    | some info =>
      let target := hosts.foldl
        (fun t host => if (t.lookup host).isSome then dictDel t host else t)
        info.target_progress
      some (setInfo c scan_id { info with target_progress := target })

/-- `ScanCollection.set_progress` (`ospd/scan.py` 118-125). -/
def set_progress (c : ScanCollection) (scan_id : String) (progress : Int) (now : Nat) :
    Option ScanCollection := do
  let c ←
    if 0 < progress ∧ progress ≤ 100 then
      updateInfo c scan_id (fun info => { info with progress := progress })
    else some c
  if progress = 100 then
    updateInfo c scan_id (fun info => { info with end_time := now })
  else some c

/-- `ScanCollection.set_host_progress` (`ospd/scan.py` 127-134). -/
def set_host_progress (c : ScanCollection) (scan_id : String) (host : String)
    (progress : Int) : Option ScanCollection :=
  if 0 < progress ∧ progress ≤ 100 then
    match c.scans_table.lookup scan_id with
    | none => none
    | some info =>
      let host_progresses := info.target_progress
      let host_progresses := dictSet host_progresses host progress
      some (setInfo c scan_id { info with target_progress := host_progresses })
  else some c

/-- `ScanCollection.set_host_finished` (`ospd/scan.py` 136-143). -/
def set_host_finished (c : ScanCollection) (scan_id : String) (host : String) :
    Option ScanCollection :=
  match c.scans_table.lookup scan_id with
  | none => none
  | some info =>
    let finished_hosts := info.finished_hosts
    let finished_hosts :=
      if host ∈ finished_hosts then finished_hosts else finished_hosts ++ [host]
    some (setInfo c scan_id { info with finished_hosts := finished_hosts })

/-- Modelled from the spec: `ospd.network.target_str_to_list` is not under
`src/`; the spec (§6) describes it as "a pure function turning a host-range
expression into an ordered list of individual host strings".  Host-range
expressions are represented in this embedding by their expanded ordered
lists, so the expansion itself is the identity. -/
def target_str_to_list (hosts : List String) : List String := hosts

/-- Python `list.remove`: drops the first occurrence, raises `ValueError`
(`none`) when the element is absent. -/
def list_remove (l : List String) (x : String) : Option (List String) :=
  if x ∈ l then some (l.erase x) else none

/-- Sequential `list.remove` of every element of the second list from the
first one (the loop of `get_hosts_unfinished`). -/
def remove_all : List String → List String → Option (List String)
  | l, [] => some l
  | l, x :: xs =>
    match list_remove l x with
    | none => none
    | some l' => remove_all l' xs

/-- `ScanCollection.get_hosts_finished` (`ospd/scan.py` 157-160). -/
def get_hosts_finished (c : ScanCollection) (scan_id : String) : Option (List String) :=
  (c.scans_table.lookup scan_id).map (fun info => info.finished_hosts)

/-- `ScanCollection.get_host_list` (`ospd/scan.py` 362-365). -/
def get_host_list (c : ScanCollection) (scan_id : String) : Option (List String) :=
  (c.scans_table.lookup scan_id).map (fun info => info.target.hosts)

/-- `ScanCollection.get_hosts_unfinished` (`ospd/scan.py` 145-155): the
expanded host list with each worker-finished host removed via
`list.remove`. -/
def get_hosts_unfinished (c : ScanCollection) (scan_id : String) :
    Option (List String) :=
  match c.scans_table.lookup scan_id with
  | none => none
  | some info =>
    remove_all (target_str_to_list info.target.hosts) info.finished_hosts

/-- Python truthiness of the optional `max_res` argument (`None` and `0`
are both falsy). -/
def maxTruthy (max_res : Option Int) : Bool :=
  match max_res with
  | none => false
  | some n => n != 0

/-- Python slice `l[:n]` for an `Int` bound. -/
def pySliceTake (l : List Result) (n : Int) : List Result :=
  if 0 ≤ n then l.take n.toNat else l.take (l.length - (-n).toNat)

/-- Python slice `l[n:]` for an `Int` bound. -/
def pySliceDrop (l : List Result) (n : Int) : List Result :=
  if 0 ≤ n then l.drop n.toNat else l.drop (l.length - (-n).toNat)

/-- `ScanCollection.results_iterator` (`ospd/scan.py` 162-182); the
returned iterator is materialised as the list of results it yields, paired
with the updated collection. -/
def results_iterator (c : ScanCollection) (scan_id : String) (pop_res : Bool)
    (max_res : Option Int) : Option (List Result × ScanCollection) :=
  match c.scans_table.lookup scan_id with
  | none => none
  | some info =>
    if pop_res && maxTruthy max_res then
      let result_aux := info.results
      let n := max_res.getD 0
      some (pySliceTake result_aux n,
        setInfo c scan_id { info with results := pySliceDrop result_aux n })
    else if pop_res then
      let result_aux := info.results
      some (result_aux, setInfo c scan_id { info with results := [] })
    else
      some (info.results, c)

/-- `ScanCollection.remove_single_result` (`ospd/scan.py` 189-200):
`list.remove` of the exact result record on a copy of the results list,
which is then written back. -/
def remove_single_result (c : ScanCollection) (scan_id : String) (result : Result) :
    Option ScanCollection :=
  match c.scans_table.lookup scan_id with
  | none => none
  | some info =>
    if result ∈ info.results then
      some (setInfo c scan_id { info with results := info.results.erase result })
    else none

/-- The `for result in self.results_iterator(...)` loop of
`del_results_for_stopped_hosts` (`ospd/scan.py` 206-210), iterating over
the snapshot captured by the iterator while the table evolves. -/
def del_results_loop (scan_id : String) (unfinished_hosts : List String) :
    ScanCollection → List Result → Option ScanCollection
  | c, [] => some c
  | c, result :: rest =>
    if result.host ∈ unfinished_hosts then
      match remove_single_result c scan_id result with
      | none => none
      | some c' => del_results_loop scan_id unfinished_hosts c' rest
    else del_results_loop scan_id unfinished_hosts c rest

/-- `ScanCollection.del_results_for_stopped_hosts` (`ospd/scan.py`
202-210). -/
def del_results_for_stopped_hosts (c : ScanCollection) (scan_id : String) :
    Option ScanCollection :=
  match get_hosts_unfinished c scan_id with
  | none => none
  | some unfinished_hosts =>
    match results_iterator c scan_id false none with
    | none => none
    | some (snapshot, c') => del_results_loop scan_id unfinished_hosts c' snapshot

/-- Python truthiness of the optional `options` dict (`None` and `{}` are
both falsy). -/
def optTruthy (options : Option Options) : Bool :=
  match options with
  | none => false
  | some opts => !opts.isEmpty

/-- `ScanCollection.resume_scan` (`ospd/scan.py` 212-231). -/
def resume_scan (c : ScanCollection) (scan_id : String) (options : Option Options) :
    Option (String × ScanCollection) := do
  let c ← updateInfo c scan_id (fun info => { info with status := ScanStatus.INIT })
  let c ←
    if optTruthy options then
      updateInfo c scan_id (fun info => { info with options := options.getD [] })
    else some c
  let c ← del_results_for_stopped_hosts c scan_id
  some (scan_id, c)

/-- `ScanCollection.id_exists` (`ospd/scan.py` 407-410). -/
def id_exists (c : ScanCollection) (scan_id : String) : Bool :=
  (c.scans_table.lookup scan_id).isSome

/-- `ScanCollection.get_status` (`ospd/scan.py` 288-291); `none` is the
`KeyError` case. -/
def get_status (c : ScanCollection) (scan_id : String) : Option ScanStatus :=
  (c.scans_table.lookup scan_id).map (fun info => info.status)

/-- The fresh-record tail of `ScanCollection.create_scan` (`ospd/scan.py`
259-280). -/
def create_fresh (c : ScanCollection) (scan_id : Option String) (target : ScanTarget)
    (options : Option Options) (vts : Option VTs) (now : Nat) (fresh_uuid : String) :
    String × ScanCollection :=
  let options := options.getD []
  let sid :=
    match scan_id with
    | none => fresh_uuid
    | some s => if s = "" then fresh_uuid else s
  let scan_info : ScanInfo :=
    { results := [], finished_hosts := [], progress := 0, target_progress := [],
      target := target, vts := vts, options := options, start_time := now,
      end_time := 0, status := ScanStatus.INIT, scan_id := sid }
  (sid, setInfo c sid scan_info)

/-- `ScanCollection.create_scan` (`ospd/scan.py` 233-280); `now` models
`int(time.time())` and `fresh_uuid` the `str(uuid.uuid4())` value that
would be generated when no usable scan id is supplied. -/
def create_scan (c : ScanCollection) (scan_id : Option String)
    (target : Option ScanTarget) (options : Option Options) (vts : Option VTs)
    (now : Nat) (fresh_uuid : String) : Option (String × ScanCollection) :=
  let target := target.getD emptyScanTarget
  let c := { c with data_manager := true }
  match scan_id with
  | some sid =>
    if sid ≠ "" ∧ id_exists c sid ∧ get_status c sid = some ScanStatus.STOPPED then do
      let c ← updateInfo c sid (fun info => { info with end_time := 0 })
      resume_scan c sid options
    else some (create_fresh c (some sid) target options vts now fresh_uuid)
  | none => some (create_fresh c none target options vts now fresh_uuid)

/-- `ScanCollection.set_status` (`ospd/scan.py` 282-286). -/
def set_status (c : ScanCollection) (scan_id : String) (status : ScanStatus)
    (now : Nat) : Option ScanCollection := do
  let c ← updateInfo c scan_id (fun info => { info with status := status })
  if status = ScanStatus.STOPPED then
    updateInfo c scan_id (fun info => { info with end_time := now })
  else some c

/-- The pure computation of `ScanCollection.simplify_exclude_host_list`
(`ospd/scan.py` 308-326): remove each client-declared finished host that is
present from the exclude list, but only when both lists are non-empty. -/
def simplify_exclude (exc_hosts_list finished_hosts_list : List String) :
    List String :=
  if finished_hosts_list ≠ [] ∧ exc_hosts_list ≠ [] then
    finished_hosts_list.foldl
      (fun exc finished => if finished ∈ exc then exc.erase finished else exc)
      exc_hosts_list
  else exc_hosts_list

/-- `ScanCollection.simplify_exclude_host_list` keyed by scan id
(`get_exclude_hosts` / `get_finished_hosts` inlined as the target-field
reads they are). -/
def simplify_exclude_host_list (c : ScanCollection) (scan_id : String) :
    Option (List String) :=
  (c.scans_table.lookup scan_id).map (fun info =>
    simplify_exclude (target_str_to_list info.target.exclude_hosts)
      (target_str_to_list info.target.finished_hosts))

/-- The Python exceptions `calculate_target_progress` can raise. -/
inductive PyError where
  | KeyError
  | ZeroDivisionError
  deriving DecidableEq, Repr

/-- `ScanCollection.calculate_target_progress` (`ospd/scan.py` 328-350);
Python true division is modelled over `Rat`. -/
def calculate_target_progress (c : ScanCollection) (scan_id : String) :
    Except PyError Rat :=
  match c.scans_table.lookup scan_id with
  | none => .error PyError.KeyError
  | some info =>
    let host := info.target.hosts
    let total_hosts : Int := (target_str_to_list host).length
    let exc_hosts_list := simplify_exclude
      (target_str_to_list info.target.exclude_hosts)
      (target_str_to_list info.target.finished_hosts)
    let exc_hosts : Int :=
      if exc_hosts_list ≠ [] then (exc_hosts_list.length : Int) else 0
    let host_progresses := info.target_progress
    if total_hosts - exc_hosts = 0 then .error PyError.ZeroDivisionError
    else
      .ok ((((host_progresses.map (fun p => p.2)).sum : Int) : Rat) /
        ((total_hosts - exc_hosts : Int) : Rat))

/-- `ScanCollection.delete_scan` (`ospd/scan.py` 412-424). -/
def delete_scan (c : ScanCollection) (scan_id : String) :
    Option (Bool × ScanCollection) :=
  match get_status c scan_id with
  | none => none
  | some status =>
    if status = ScanStatus.RUNNING then some (false, c)
    else
      let table := dictDel c.scans_table scan_id
      let c := { c with scans_table := table }
      let c := if table.length = 0 then { c with data_manager := false } else c
      some (true, c)

/-! The `start_scan` command handler (`src/ospd/command/command.py`,
class `StartScan`). -/

/-- `OspdCommandError(message, command)` as raised by the handlers. -/
structure OspdCommandError where
  message : String
  command : String
  deriving DecidableEq, Repr

/-- A `simple_response_str(command, code, text, content)` response; the
`<id>` payload text is kept in `id`. -/
structure Response where
  command : String
  code : Nat
  text : String
  id : Option String
  deriving DecidableEq, Repr

/-- Outcome of `StartScan.handle_xml`: a response, a raised
`OspdCommandError`, or an uncaught Python exception propagating out of the
registry (`py_error`). -/
inductive HandlerOutcome where
  | ok (resp : Response) (c : ScanCollection)
  | cmd_error (err : OspdCommandError) (c : ScanCollection)
  | py_error
  deriving DecidableEq, Repr

/-- The response code of an `ok` outcome (`0` otherwise). -/
def outcome_code (o : HandlerOutcome) : Nat :=
  match o with
  | .ok resp _ => resp.code
  | .cmd_error _ _ => 0
  | .py_error => 0

/-- The parsed `<start_scan>` request: the XML attributes and child
elements `StartScan.handle_xml` reads.  `targets_element` stands for the
result of `OspRequest.process_target_element` (external collaborator),
already parsed into a target record. -/
structure StartScanRequest where
  target_attr : Option (List String)
  ports_attr : Option String
  targets_element : Option ScanTarget
  scan_id : Option String
  parallel : Option String
  scanner_params : Option Options
  vt_selection : Option VTs
  deriving DecidableEq, Repr

/-- Target resolution of `StartScan.handle_xml` (`command.py` 463-487):
legacy `target`/`ports` attributes win; otherwise the structured
`targets/target` element; `none` means `OspdCommandError('No targets or
ports')`. -/
def resolve_scan_target (req : StartScanRequest) : Option ScanTarget :=
  match req.target_attr, req.ports_attr with
  | some t, some p =>
    some { hosts := t, ports := p, credentials := [], exclude_hosts := [],
           finished_hosts := [], options := [] }
  | _, _ => req.targets_element

/-- Hexadecimal digit test. -/
def isHexDigit (ch : Char) : Bool :=
  ch.isDigit || (decide ('a' ≤ ch) && decide (ch ≤ 'f')) ||
    (decide ('A' ≤ ch) && decide (ch ≤ 'F'))

/-- Modelled from the spec: `ospd.misc.valid_uuid` is not under `src/`; the
spec requires the optional `scan_id` attribute to be "UUID-formatted",
i.e. the canonical hyphenated 8-4-4-4-12 hexadecimal form. -/
def valid_uuid (value : String) : Bool :=
  let cs := value.toList
  cs.length == 36 &&
    (List.range 36).all (fun i =>
      if i == 8 || i == 13 || i == 18 || i == 23 then cs.getD i ' ' == '-'
      else isHexDigit (cs.getD i ' '))

/-- The guard `scan_id is not None and scan_id != '' and not
valid_uuid(scan_id)` (`command.py` 490). -/
def invalid_scan_id (scan_id : Option String) : Bool :=
  match scan_id with
  | none => false
  | some sid => sid != "" && !(valid_uuid sid)

/-- Modelled from the spec: `OSPDaemon.preprocess_scan_params` is not under
`src/`; the spec treats scanner-parameter handling as collaborator-side
preprocessing, so it is a passthrough of the parsed params dict here. -/
def preprocess_scan_params (params : Options) : Options := params

/-- Modelled from the spec: `OSPDaemon.process_scan_params` is not under
`src/`; passthrough, as for `preprocess_scan_params`. -/
def process_scan_params (params : Options) : Options := params

/-- The value of a non-empty all-digit character sequence, `none`
otherwise. -/
def pyDigits (cs : List Char) : Option Nat :=
  if cs ≠ [] ∧ cs.all Char.isDigit then
    some (cs.foldl (fun acc ch => acc * 10 + (ch.toNat - '0'.toNat)) 0)
  else none

/-- Python `int()` applied to a string: parses an optionally-signed
decimal literal and fails (`ValueError`, modelled as `none`) on anything
else.  (Python additionally tolerates surrounding whitespace and digit
underscores, corners no theorem below exercises.) -/
def pyInt (s : String) : Option Int :=
  match s.toList with
  | '-' :: rest => (pyDigits rest).map (fun n => -(n : Int))
  | '+' :: rest => (pyDigits rest).map (fun n => (n : Int))
  | cs => (pyDigits cs).map (fun n => (n : Int))

/-- The dry-run test `'dry_run' in params and int(params['dry_run'])`
(`command.py` 515).  When the key is present, Python calls `int()` on the
value and raises `ValueError` on an unparsable string; `none` models that
raising path. -/
def dry_run_requested (params : Options) : Option Bool :=
  match params.lookup "dry_run" with
  | some v =>
    match pyInt v with
    | some n => some (n != 0)
    | none => none
  | none => some false

/-- Modelled from the spec: `OSPDaemon.create_scan` is not under `src/`;
§4.3 of the spec says `start_scan` "creates/resumes a scan via
Registry.create", so the daemon layer delegates to
`ScanCollection.create_scan`. -/
def daemon_create_scan (c : ScanCollection) (scan_id : Option String)
    (target : Option ScanTarget) (options : Option Options) (vts : Option VTs)
    (now : Nat) (fresh_uuid : String) : Option (String × ScanCollection) :=
  create_scan c scan_id target options vts now fresh_uuid

/-- The tail of `StartScan.handle_xml` after validation (`command.py`
514-543): evaluate the dry-run test (whose `int()` can raise, propagating
as `py_error`), choose dry run or real scan params, call the daemon's
create, and answer `100/Continue` when no scan id came back, else
`200/OK`. -/
def StartScan_handle_create (c : ScanCollection) (req : StartScanRequest)
    (params : Options) (vt_selection : VTs) (now : Nat) (fresh_uuid : String) :
    HandlerOutcome :=
  match dry_run_requested params with
  | none => .py_error
  | some dry =>
    let scan_params : Option Options :=
      if dry then none else some (process_scan_params params)
    let scan_id_aux := req.scan_id
    match daemon_create_scan c req.scan_id (resolve_scan_target req) scan_params
        (some vt_selection) now fresh_uuid with
    | none => .py_error
    | some (sid, c') =>
      if sid = "" then .ok ⟨"start_scan", 100, "Continue", scan_id_aux⟩ c'
      else .ok ⟨"start_scan", 200, "OK", some sid⟩ c'

/-- `StartScan.handle_xml` (`command.py` 456-543).  Worker-process spawning
(`create_process`, `scan_processes`, `scan_process.start()`) lives on the
daemon, outside the scan registry, so it has no effect on the
`ScanCollection` component of the outcome. -/
def StartScan_handle_xml (c : ScanCollection) (req : StartScanRequest) (now : Nat)
    (fresh_uuid : String) : HandlerOutcome :=
  match resolve_scan_target req with
  | none => .cmd_error ⟨"No targets or ports", "start_scan"⟩ c
  | some _scan_target =>
    if invalid_scan_id req.scan_id then
      .cmd_error ⟨"Invalid scan_id UUID", "start_scan"⟩ c
    else
      match req.scanner_params with
      | none => .cmd_error ⟨"No scanner_params element", "start_scan"⟩ c
      | some scanner_params_elem =>
        let params := preprocess_scan_params scanner_params_elem
        match req.vt_selection with
        | some vts_list =>
          if vts_list.length = 0 then
            .cmd_error ⟨"VTs list is empty", "start_scan"⟩ c
          else
            StartScan_handle_create c req params vts_list now fresh_uuid
        | none => StartScan_handle_create c req params [] now fresh_uuid

/-! Proof-side helpers and concrete states used by the theorems below. -/

/-- Pure image of `del_results_loop`: walk the snapshot, erasing from the
current list each snapshot entry whose host matches; `none` when an erase
target is missing (Python `ValueError`). -/
def delLoopO (p : Result → Bool) : List Result → List Result → Option (List Result)
  | [], cur => some cur
  | r :: rest, cur =>
    if p r then
      if r ∈ cur then delLoopO p rest (cur.erase r) else none
    else delLoopO p rest cur

/-- A minimal scan record used by concrete witnesses. -/
def infoBase : ScanInfo :=
  { results := [], finished_hosts := [], progress := 0, target_progress := [],
    target := emptyScanTarget, vts := none, options := [], start_time := 1,
    end_time := 0, status := ScanStatus.INIT, scan_id := "u" }

/-- A registry holding just the scan `"u"` in its initial state. -/
def cBase : ScanCollection :=
  { data_manager := true, scans_table := [("u", infoBase)] }

/-- The scan `"u"` once FINISHED. -/
def infoFinished : ScanInfo := { infoBase with status := ScanStatus.FINISHED }

/-- A registry holding just the FINISHED scan `"u"`. -/
def cFinished : ScanCollection :=
  { data_manager := true, scans_table := [("u", infoFinished)] }

/-- A sample buffered result for host `h1`. -/
def rSample : Result :=
  { rtype := 1, name := "n", severity := "", test_id := "", value := "",
    host := "h1", hostname := "", port := "", qod := "" }

/-- The scan `"u"` holding the one buffered result `rSample`. -/
def infoWithResult : ScanInfo := { infoBase with results := [rSample] }

/-- A registry holding just the scan `"u"` with one buffered result. -/
def cWithResult : ScanCollection :=
  { data_manager := true, scans_table := [("u", infoWithResult)] }

/-- A buffered result for host `h1`. -/
def rH1 : Result :=
  { rtype := 1, name := "n1", severity := "", test_id := "", value := "",
    host := "h1", hostname := "", port := "", qod := "" }

/-- A buffered result for host `h2`. -/
def rH2 : Result :=
  { rtype := 1, name := "n2", severity := "", test_id := "", value := "",
    host := "h2", hostname := "", port := "", qod := "" }

/-- A buffered result for host `h3`, which lies outside the target host
list below. -/
def rH3 : Result :=
  { rtype := 1, name := "n3", severity := "", test_id := "", value := "",
    host := "h3", hostname := "", port := "", qod := "" }

/-- A STOPPED scan over target hosts `h1,h2` with `h1` finished and
buffered results for `h1`, `h2` and the off-target host `h3`. -/
def infoStopped : ScanInfo :=
  { results := [rH1, rH2, rH3], finished_hosts := ["h1"], progress := 50,
    target_progress := [("h1", 100)],
    target := { hosts := ["h1", "h2"], ports := "80", exclude_hosts := [],
                finished_hosts := [], credentials := [], options := [] },
    vts := none, options := [("old", "1")], start_time := 1, end_time := 4,
    status := ScanStatus.STOPPED, scan_id := "s" }

/-- A registry holding just the STOPPED scan `"s"`. -/
def cStopped : ScanCollection :=
  { data_manager := true, scans_table := [("s", infoStopped)] }

/-- The spec's progress example: 4 target hosts, `h1` excluded, per-host
progress 50 for `h2` and 100 for `h3`. -/
def infoProgress : ScanInfo :=
  { infoBase with
    target := { hosts := ["h1", "h2", "h3", "h4"], ports := "", exclude_hosts := ["h1"],
                finished_hosts := [], credentials := [], options := [] }
    target_progress := [("h2", 50), ("h3", 100)] }

/-- A registry holding just the scan `"u"` with the spec's progress
example. -/
def cProgress : ScanCollection :=
  { data_manager := true, scans_table := [("u", infoProgress)] }

/-- Five buffered results, for the spec's FIFO-drain example. -/
def fiveResults : List Result :=
  [{ rtype := 1, name := "a", severity := "", test_id := "", value := "",
     host := "h1", hostname := "", port := "", qod := "" },
   { rtype := 1, name := "b", severity := "", test_id := "", value := "",
     host := "h1", hostname := "", port := "", qod := "" },
   { rtype := 1, name := "c", severity := "", test_id := "", value := "",
     host := "h1", hostname := "", port := "", qod := "" },
   { rtype := 1, name := "d", severity := "", test_id := "", value := "",
     host := "h1", hostname := "", port := "", qod := "" },
   { rtype := 1, name := "e", severity := "", test_id := "", value := "",
     host := "h1", hostname := "", port := "", qod := "" }]

/-- The scan `"u"` with five buffered results. -/
def infoFive : ScanInfo := { infoBase with results := fiveResults }

/-- A registry holding just the scan `"u"` with five buffered results. -/
def cFive : ScanCollection :=
  { data_manager := true, scans_table := [("u", infoFive)] }

/-- A canonical UUID-formatted scan id. -/
def uuidStopped : String := "12345678-1234-1234-1234-123456789abc"

/-- The STOPPED scan of `infoStopped`, registered under a UUID-formatted
id. -/
def infoStoppedU : ScanInfo := { infoStopped with scan_id := uuidStopped }

/-- A registry holding just the STOPPED scan `uuidStopped`. -/
def cStoppedU : ScanCollection :=
  { data_manager := true, scans_table := [(uuidStopped, infoStoppedU)] }

/-- A well-formed legacy-style start_scan request that names the STOPPED
scan `uuidStopped`. -/
def reqResume : StartScanRequest :=
  { target_attr := some ["h1", "h2"], ports_attr := some "80",
    targets_element := none, scan_id := some uuidStopped, parallel := none,
    scanner_params := some [], vt_selection := none }

/-- The same request carrying a syntactically invalid scan id. -/
def reqBadId : StartScanRequest := { reqResume with scan_id := some "not-a-uuid" }

end Ospd

namespace Ospd

/-! Basic lemmas about the dict helpers and the shared-table accessors. -/

theorem lookup_cons_self {α : Type} (k : String) (b : α) (t : List (String × α)) :
    List.lookup k ((k, b) :: t) = some b := by
  simp [List.lookup]

theorem lookup_cons_ne {α : Type} (a k : String) (b : α) (t : List (String × α))
    (h : a ≠ k) : List.lookup k ((a, b) :: t) = List.lookup k t := by
  simp [List.lookup, beq_eq_false_iff_ne.mpr (Ne.symm h)]

theorem lookup_dictSet_self {α : Type} (t : List (String × α)) (k : String) (v : α) :
    (dictSet t k v).lookup k = some v := by
  induction t with
  | nil => simp [dictSet, List.lookup]
  | cons p rest ih =>
    obtain ⟨a, b⟩ := p
    by_cases h : a = k
    · subst h
      simp [dictSet, lookup_cons_self]
    · simp [dictSet, h, lookup_cons_ne a k b _ h, ih]

theorem dictSet_dictSet {α : Type} (t : List (String × α)) (k : String) (v₁ v₂ : α) :
    dictSet (dictSet t k v₁) k v₂ = dictSet t k v₂ := by
  induction t with
  | nil => simp [dictSet]
  | cons p rest ih =>
    obtain ⟨a, b⟩ := p
    by_cases h : a = k
    · subst h
      simp [dictSet]
    · simp [dictSet, h, ih]

theorem dictSet_lookup_eq_self {α : Type} (t : List (String × α)) (k : String) (v : α)
    (h : t.lookup k = some v) : dictSet t k v = t := by
  induction t with
  | nil => simp [List.lookup] at h
  | cons p rest ih =>
    obtain ⟨a, b⟩ := p
    by_cases hak : a = k
    · subst hak
      rw [lookup_cons_self] at h
      cases h
      simp [dictSet]
    · rw [lookup_cons_ne a k b rest hak] at h
      simp [dictSet, hak, ih h]

theorem lookup_dictDel_self {α : Type} (t : List (String × α)) (k : String) :
    (dictDel t k).lookup k = none := by
  induction t with
  | nil => simp [dictDel, List.lookup]
  | cons p rest ih =>
    obtain ⟨a, b⟩ := p
    by_cases h : a = k
    · subst h
      simpa [dictDel, List.filter_cons] using ih
    · have hne : (a != k) = true := bne_iff_ne.mpr h
      simpa [dictDel, List.filter_cons, hne, lookup_cons_ne a k b _ h] using ih

theorem getScan_setInfo_self (c : ScanCollection) (k : String) (v : ScanInfo) :
    getScan (setInfo c k v) k = some v :=
  lookup_dictSet_self c.scans_table k v

theorem setInfo_setInfo (c : ScanCollection) (k : String) (v₁ v₂ : ScanInfo) :
    setInfo (setInfo c k v₁) k v₂ = setInfo c k v₂ := by
  simp [setInfo, dictSet_dictSet]

theorem setInfo_getScan_eq (c : ScanCollection) (k : String) (v : ScanInfo)
    (h : getScan c k = some v) : setInfo c k v = c := by
  cases c
  simp [setInfo, dictSet_lookup_eq_self _ _ _ h]

theorem updateInfo_eq (c : ScanCollection) (k : String) (f : ScanInfo → ScanInfo)
    (info : ScanInfo) (h : getScan c k = some info) :
    updateInfo c k f = some (setInfo c k (f info)) := by
  simp [updateInfo, getScan] at h ⊢
  simp [h]

/-- C4: for every scan present in the registry, `set_progress` stores `p`
exactly when `0 < p ≤ 100` and leaves the stored progress (indeed the
whole registry) unchanged when `p ≤ 0` or `p > 100`; it stamps `end_time`
with the non-zero current time exactly when `p = 100`, and no other value
of `p` changes `end_time`. -/
theorem set_progress_spec (c : ScanCollection) (sid : String) (info : ScanInfo)
    (p : Int) (now : Nat) (h : getScan c sid = some info) (hnow : 0 < now) :
    (0 < p → p ≤ 100 → p ≠ 100 →
      set_progress c sid p now = some (setInfo c sid { info with progress := p })) ∧
    (p = 100 →
      set_progress c sid p now =
        some (setInfo c sid { info with progress := 100, end_time := now }) ∧
      now ≠ 0) ∧
    ((p ≤ 0 ∨ 100 < p) → set_progress c sid p now = some c) := by
  refine ⟨?_, ?_, ?_⟩
  · intro h1 h2 h3
    have e1 := updateInfo_eq c sid (fun i => { i with progress := p }) info h
    simp [set_progress, h1, h2, h3, e1]
  · rintro rfl
    refine ⟨?_, by omega⟩
    have e1 := updateInfo_eq c sid (fun i => { i with progress := (100 : Int) }) info h
    have e2 := updateInfo_eq (setInfo c sid { info with progress := (100 : Int) }) sid
      (fun i => { i with end_time := now }) { info with progress := (100 : Int) }
      (getScan_setInfo_self c sid _)
    norm_num [set_progress, e1, e2, setInfo_setInfo]
  · intro h3
    have h4 : ¬(0 < p ∧ p ≤ 100) := by rcases h3 with h3 | h3 <;> omega
    have h5 : p ≠ 100 := by rcases h3 with h3 | h3 <;> omega
    simp [set_progress, h4, h5]

/-- Witness for `set_progress_spec` at the scan `"u"`, `p = 100`,
`now = 7`. -/
theorem set_progress_spec_witness :
    getScan cBase "u" = some infoBase ∧ 0 < 7 ∧
    (set_progress cBase "u" 100 7 =
        some (setInfo cBase "u" { infoBase with progress := 100, end_time := 7 }) ∧
      7 ≠ 0) := by
  refine ⟨by decide, by decide, ?_⟩
  exact (set_progress_spec cBase "u" infoBase 100 7 (by decide) (by decide)).2.1 rfl

/-- C5: for every scan present in the registry, `delete_scan` returns
`false` and leaves the whole registry untouched when the scan is RUNNING;
for any other status it returns `true`, removes the record, and, when the
table thereby becomes empty, drops the shared-state manager so that the
next `create_scan` allocates a fresh one. -/
theorem delete_scan_spec (c : ScanCollection) (sid : String) (info : ScanInfo)
    (h : getScan c sid = some info) :
    (info.status = ScanStatus.RUNNING → delete_scan c sid = some (false, c)) ∧
    (info.status ≠ ScanStatus.RUNNING →
      ∃ c', delete_scan c sid = some (true, c') ∧
        c'.scans_table = dictDel c.scans_table sid ∧
        getScan c' sid = none ∧
        (c'.scans_table = [] → c'.data_manager = false) ∧
        (∀ target options vts now u,
          (create_scan c' none target options vts now u).map
            (fun r => r.2.data_manager) = some true)) := by
  have hl : c.scans_table.lookup sid = some info := h
  refine ⟨?_, ?_⟩
  · intro hst
    simp [delete_scan, get_status, getScan, hl, hst]
  · intro hst
    by_cases hlen : (dictDel c.scans_table sid).length = 0
    · refine ⟨⟨false, dictDel c.scans_table sid⟩, ?_, rfl, lookup_dictDel_self _ _,
        fun _ => rfl, ?_⟩
      · simp [delete_scan, get_status, getScan, hl, hst, hlen]
      · intro target options vts now u
        simp [create_scan, create_fresh, setInfo]
    · refine ⟨{ c with scans_table := dictDel c.scans_table sid }, ?_, rfl,
        lookup_dictDel_self _ _, ?_, ?_⟩
      · simp [delete_scan, get_status, getScan, hl, hst, hlen]
      · intro hnil
        have hz : (dictDel c.scans_table sid).length = 0 := by
          simpa using congrArg List.length hnil
        exact absurd hz hlen
      · intro target options vts now u
        simp [create_scan, create_fresh, setInfo]

/-- Witness for `delete_scan_spec` at the FINISHED scan `"u"`. -/
theorem delete_scan_spec_witness :
    getScan cFinished "u" = some infoFinished ∧
    infoFinished.status ≠ ScanStatus.RUNNING ∧
    (∃ c', delete_scan cFinished "u" = some (true, c') ∧
      c'.scans_table = dictDel cFinished.scans_table "u" ∧
      getScan c' "u" = none ∧
      (c'.scans_table = [] → c'.data_manager = false) ∧
      (∀ target options vts now u,
        (create_scan c' none target options vts now u).map
          (fun r => r.2.data_manager) = some true)) := by
  refine ⟨by decide, by decide, ?_⟩
  exact (delete_scan_spec cFinished "u" infoFinished (by decide)).2 (by decide)

/-- C7 (amended): the registry itself does not guard status transitions:
`set_status` unconditionally stores the requested status (stamping
`end_time` exactly when the new status is STOPPED), so in particular a
FINISHED scan's status can be changed by `set_status`; the
INIT→RUNNING→STOPPED/FINISHED→INIT machine is enforced by the registry's
callers, not by the registry. -/
theorem set_status_unconditional (c : ScanCollection) (sid : String) (info : ScanInfo)
    (st : ScanStatus) (now : Nat) (h : getScan c sid = some info) :
    set_status c sid st now =
      some (setInfo c sid
        { info with
          status := st
          end_time := if st = ScanStatus.STOPPED then now else info.end_time }) := by
  by_cases hs : st = ScanStatus.STOPPED
  · subst hs
    have e1 := updateInfo_eq c sid (fun i => { i with status := ScanStatus.STOPPED }) info h
    have e2 := updateInfo_eq (setInfo c sid { info with status := ScanStatus.STOPPED }) sid
      (fun i => { i with end_time := now }) { info with status := ScanStatus.STOPPED }
      (getScan_setInfo_self c sid _)
    simp [set_status, e1, e2, setInfo_setInfo]
  · simp [set_status, updateInfo_eq c sid _ info h, hs]

/-- Witness for `set_status_unconditional`: stopping the scan `"u"` stores
STOPPED and stamps `end_time`. -/
theorem set_status_unconditional_witness :
    getScan cBase "u" = some infoBase ∧
    set_status cBase "u" ScanStatus.STOPPED 9 =
      some (setInfo cBase "u"
        { infoBase with status := ScanStatus.STOPPED, end_time := 9 }) := by
  refine ⟨by decide, ?_⟩
  simpa using set_status_unconditional cBase "u" infoBase ScanStatus.STOPPED 9 (by decide)

/-- C7 counterexample: the claim "no registry operation changes the status
of a FINISHED scan" is false: `set_status` moves the FINISHED scan `"u"`
to RUNNING. -/
theorem finished_status_escapes :
    get_status cFinished "u" = some ScanStatus.FINISHED ∧
    (set_status cFinished "u" ScanStatus.RUNNING 5).map (fun c' => get_status c' "u") =
      some (some ScanStatus.RUNNING) ∧
    ScanStatus.RUNNING ≠ ScanStatus.FINISHED := by decide

/-- C9: every nested-container mutator of the registry ends in a write of
the entire top-level field back into the shared scan record: its net
effect on the shared table is `setInfo` of the record with the mutated
field, and a record stored by `setInfo` is exactly what a subsequent read
of the shared table — in particular one from the supervising process —
observes. -/
theorem mutators_write_back :
    (∀ c sid info', getScan (setInfo c sid info') sid = some info') ∧
    (∀ c sid info rt host hostname name value port tid sev qod,
      getScan c sid = some info → sid ≠ "" → ¬(name = "" ∧ value = "") →
      add_result c sid rt host hostname name value port tid sev qod =
        some (setInfo c sid { info with results := info.results ++
          [{ rtype := rt, name := name, severity := sev, test_id := tid,
             value := value, host := host, hostname := hostname, port := port,
             qod := qod }] })) ∧
    (∀ c sid info host p, getScan c sid = some info → 0 < p → p ≤ 100 →
      set_host_progress c sid host p =
        some (setInfo c sid
          { info with target_progress := dictSet info.target_progress host p })) ∧
    (∀ c sid info hosts, getScan c sid = some info → hosts ≠ [] →
      remove_hosts_from_target_progress c sid hosts =
        some (setInfo c sid
          { info with
            target_progress := hosts.foldl
              (fun t host => if (t.lookup host).isSome then dictDel t host else t)
              info.target_progress })) ∧
    (∀ c sid info host, getScan c sid = some info →
      set_host_finished c sid host =
        some (setInfo c sid { info with finished_hosts :=
          if host ∈ info.finished_hosts then info.finished_hosts
          else info.finished_hosts ++ [host] })) ∧
    (∀ c sid info r, getScan c sid = some info → r ∈ info.results →
      remove_single_result c sid r =
        some (setInfo c sid { info with results := info.results.erase r })) := by
  refine ⟨fun c sid info' => getScan_setInfo_self c sid info', ?_, ?_, ?_, ?_, ?_⟩
  · intro c sid info rt host hostname name value port tid sev qod h hsid hnv
    have hl : c.scans_table.lookup sid = some info := h
    simp [add_result, hsid, hnv, hl]
  · intro c sid info host p h hp1 hp2
    have hl : c.scans_table.lookup sid = some info := h
    simp [set_host_progress, hp1, hp2, hl]
  · intro c sid info hosts h hne
    have hl : c.scans_table.lookup sid = some info := h
    simp [remove_hosts_from_target_progress, hne, hl]
  · intro c sid info host h
    have hl : c.scans_table.lookup sid = some info := h
    simp [set_host_finished, hl]
  · intro c sid info r h hr
    have hl : c.scans_table.lookup sid = some info := h
    simp [remove_single_result, hl, hr]

/-- Witness for `mutators_write_back` at the scan `"u"`. -/
theorem mutators_write_back_witness :
    getScan cBase "u" = some infoBase ∧
    add_result cBase "u" 1 "h1" "hn" "n" "" "p" "t" "s" "q" =
      some (setInfo cBase "u" { infoBase with results := infoBase.results ++
        [{ rtype := 1, name := "n", severity := "s", test_id := "t", value := "",
           host := "h1", hostname := "hn", port := "p", qod := "q" }] }) ∧
    set_host_progress cBase "u" "h1" 50 =
      some (setInfo cBase "u"
        { infoBase with target_progress := dictSet infoBase.target_progress "h1" 50 }) ∧
    remove_hosts_from_target_progress cBase "u" ["h1"] =
      some (setInfo cBase "u"
        { infoBase with
          target_progress := ["h1"].foldl
            (fun t host => if (t.lookup host).isSome then dictDel t host else t)
            infoBase.target_progress }) ∧
    set_host_finished cBase "u" "h1" =
      some (setInfo cBase "u" { infoBase with finished_hosts :=
        if "h1" ∈ infoBase.finished_hosts then infoBase.finished_hosts
        else infoBase.finished_hosts ++ ["h1"] }) ∧
    remove_single_result cWithResult "u" rSample =
      some (setInfo cWithResult "u"
        { infoWithResult with results := infoWithResult.results.erase rSample }) := by
  have H := mutators_write_back
  exact ⟨by decide,
    H.2.1 cBase "u" infoBase 1 "h1" "hn" "n" "" "p" "t" "s" "q" (by decide) (by decide)
      (by decide),
    H.2.2.1 cBase "u" infoBase "h1" 50 (by decide) (by decide) (by decide),
    H.2.2.2.1 cBase "u" infoBase ["h1"] (by decide) (by decide),
    H.2.2.2.2.1 cBase "u" infoBase "h1" (by decide),
    H.2.2.2.2.2 cWithResult "u" infoWithResult rSample (by decide) (by decide)⟩

/-- C10: `create_scan` with a scan id that exists with a status other than
STOPPED silently replaces the record with a brand-new one (empty results
and finished hosts, progress 0, status INIT, fresh start time, `end_time`
0) and returns the same scan id; no error is reported. -/
theorem create_scan_replaces_existing (c : ScanCollection) (sid : String)
    (info : ScanInfo) (target : Option ScanTarget) (options : Option Options)
    (vts : Option VTs) (now : Nat) (u : String) (h : getScan c sid = some info)
    (hst : info.status ≠ ScanStatus.STOPPED) (hsid : sid ≠ "") :
    ∃ c', create_scan c (some sid) target options vts now u = some (sid, c') ∧
      getScan c' sid = some
        { results := [], finished_hosts := [], progress := 0, target_progress := [],
          target := target.getD emptyScanTarget, vts := vts,
          options := options.getD [], start_time := now, end_time := 0,
          status := ScanStatus.INIT, scan_id := sid } := by
  have hl : c.scans_table.lookup sid = some info := h
  refine ⟨setInfo { c with data_manager := true } sid
      { results := [], finished_hosts := [], progress := 0, target_progress := [],
        target := target.getD emptyScanTarget, vts := vts,
        options := options.getD [], start_time := now, end_time := 0,
        status := ScanStatus.INIT, scan_id := sid },
    ?_, getScan_setInfo_self _ _ _⟩
  simp [create_scan, create_fresh, id_exists, get_status, getScan, hl, hst, hsid]

/-! Lemmas for the purge-on-resume loop. -/

theorem remove_all_eq (xs : List String) : ∀ l : List String, xs.Nodup →
    (∀ x ∈ xs, x ∈ l) →
    remove_all l xs = some (xs.foldl (fun acc x => acc.erase x) l) := by
  induction xs with
  | nil => intro l _ _; simp [remove_all]
  | cons x xs ih =>
    intro l hnd hsub
    have hx : x ∈ l := hsub x (List.mem_cons_self x xs)
    have hnd' := List.nodup_cons.mp hnd
    have hstep := ih (l.erase x) hnd'.2 (fun y hy => by
      have hyx : y ≠ x := by
        intro e
        subst e
        exact hnd'.1 hy
      exact (List.mem_erase_of_ne hyx).mpr (hsub y (List.mem_cons_of_mem x hy)))
    simp [remove_all, list_remove, hx, hstep]

theorem delLoopO_cons_keep (p : Result → Bool) (r : Result) (hr : p r = false) :
    ∀ (s cur : List Result),
      delLoopO p s (r :: cur) = (delLoopO p s cur).map (fun l => r :: l) := by
  intro s
  induction s with
  | nil => intro cur; simp [delLoopO]
  | cons v s' ih =>
    intro cur
    by_cases hv : p v
    · have hvr : v ≠ r := fun e => by rw [e, hr] at hv; exact Bool.false_ne_true hv
      by_cases hm : v ∈ cur
      · have he : (r :: cur).erase v = r :: cur.erase v :=
          List.erase_cons_tail (by simpa using Ne.symm hvr)
        simp [delLoopO, hv, hm, hvr, he, ih]
      · simp [delLoopO, hv, hm, hvr]
    · simp [delLoopO, hv, ih]

theorem delLoopO_self (p : Result → Bool) : ∀ l : List Result,
    delLoopO p l l = some (l.filter (fun r => !p r)) := by
  intro l
  induction l with
  | nil => simp [delLoopO]
  | cons r rest ih =>
    by_cases hp : p r
    · simp [delLoopO, hp, List.erase_cons_head, List.filter_cons, ih]
    · have hp' : p r = false := by simpa using hp
      simp [delLoopO, hp', List.filter_cons, delLoopO_cons_keep p r hp' rest rest, ih]

theorem del_results_loop_eq (sid : String) (u : List String) :
    ∀ (s : List Result) (c : ScanCollection) (info : ScanInfo),
      getScan c sid = some info →
      del_results_loop sid u c s =
        (delLoopO (fun r => decide (r.host ∈ u)) s info.results).map
          (fun rs => setInfo c sid { info with results := rs }) := by
  intro s
  induction s with
  | nil =>
    intro c info h
    simp [del_results_loop, delLoopO]
    rw [show ({ info with results := info.results } : ScanInfo) = info from rfl,
      setInfo_getScan_eq c sid info h]
  | cons r s' ih =>
    intro c info h
    have hl : c.scans_table.lookup sid = some info := h
    by_cases hmem : r.host ∈ u
    · by_cases hr : r ∈ info.results
      · have hrec := ih (setInfo c sid { info with results := info.results.erase r })
          { info with results := info.results.erase r } (getScan_setInfo_self _ _ _)
        simp [del_results_loop, hmem, remove_single_result, hl, hr, delLoopO, hrec]
        cases delLoopO (fun r => decide (r.host ∈ u)) s' (info.results.erase r) <;>
          simp [setInfo_setInfo]
      · simp [del_results_loop, hmem, remove_single_result, hl, hr, delLoopO]
    · simp [del_results_loop, hmem, delLoopO, ih c info h]

/-- `del_results_for_stopped_hosts` purges exactly the buffered results
whose host lies in the unfinished set (expanded target host list minus
worker-finished hosts), leaving every other result in place. -/
theorem del_results_spec (c : ScanCollection) (sid : String) (info : ScanInfo)
    (h : getScan c sid = some info) (hnd : info.finished_hosts.Nodup)
    (hsub : ∀ x ∈ info.finished_hosts, x ∈ target_str_to_list info.target.hosts) :
    del_results_for_stopped_hosts c sid =
      some (setInfo c sid
        { info with
          results := info.results.filter (fun r =>
            !decide (r.host ∈ info.finished_hosts.foldl (fun acc x => acc.erase x)
              (target_str_to_list info.target.hosts))) }) := by
  have hl : c.scans_table.lookup sid = some info := h
  have hrm := remove_all_eq info.finished_hosts (target_str_to_list info.target.hosts)
    hnd hsub
  have hbridge := del_results_loop_eq sid
    (info.finished_hosts.foldl (fun acc x => acc.erase x)
      (target_str_to_list info.target.hosts)) info.results c info h
  simp [del_results_for_stopped_hosts, get_hosts_unfinished, hl, hrm,
    results_iterator, maxTruthy, hbridge, delLoopO_self]

/-- `resume_scan` resets the status to INIT, replaces the options when the
supplied dict is truthy, and purges the unfinished-host results. -/
theorem resume_scan_spec (c : ScanCollection) (sid : String) (info : ScanInfo)
    (options : Option Options) (h : getScan c sid = some info)
    (hnd : info.finished_hosts.Nodup)
    (hsub : ∀ x ∈ info.finished_hosts, x ∈ target_str_to_list info.target.hosts) :
    resume_scan c sid options =
      some (sid, setInfo c sid
        { info with
          status := ScanStatus.INIT
          options := if optTruthy options then options.getD [] else info.options
          results := info.results.filter (fun r =>
            !decide (r.host ∈ info.finished_hosts.foldl (fun acc x => acc.erase x)
              (target_str_to_list info.target.hosts))) }) := by
  have e1 := updateInfo_eq c sid (fun i => { i with status := ScanStatus.INIT }) info h
  by_cases hopt : optTruthy options
  · have e2 := updateInfo_eq (setInfo c sid { info with status := ScanStatus.INIT }) sid
      (fun i => { i with options := options.getD [] })
      { info with status := ScanStatus.INIT } (getScan_setInfo_self _ _ _)
    have e3 := del_results_spec
      (setInfo c sid { info with status := ScanStatus.INIT, options := options.getD [] })
      sid { info with status := ScanStatus.INIT, options := options.getD [] }
      (getScan_setInfo_self _ _ _) hnd hsub
    simp [resume_scan, e1, hopt, e2, setInfo_setInfo, e3]
  · have e3 := del_results_spec (setInfo c sid { info with status := ScanStatus.INIT })
      sid { info with status := ScanStatus.INIT } (getScan_setInfo_self _ _ _) hnd hsub
    simp [resume_scan, e1, hopt, e3, setInfo_setInfo]

/-- `create_scan` on an existing STOPPED scan id takes the resume path:
`end_time` is zeroed, then `resume_scan` runs. -/
theorem create_scan_resume_spec (c : ScanCollection) (sid : String) (info : ScanInfo)
    (target : Option ScanTarget) (options : Option Options) (vts : Option VTs)
    (now : Nat) (u : String) (h : getScan c sid = some info) (hsid : sid ≠ "")
    (hst : info.status = ScanStatus.STOPPED) (hnd : info.finished_hosts.Nodup)
    (hsub : ∀ x ∈ info.finished_hosts, x ∈ target_str_to_list info.target.hosts) :
    create_scan c (some sid) target options vts now u =
      some (sid, setInfo { c with data_manager := true } sid
        { info with
          end_time := 0
          status := ScanStatus.INIT
          options := if optTruthy options then options.getD [] else info.options
          results := info.results.filter (fun r =>
            !decide (r.host ∈ info.finished_hosts.foldl (fun acc x => acc.erase x)
              (target_str_to_list info.target.hosts))) }) := by
  have hl : c.scans_table.lookup sid = some info := h
  have h1 : getScan { c with data_manager := true } sid = some info := h
  have e1 := updateInfo_eq { c with data_manager := true } sid
    (fun i => { i with end_time := 0 }) info h1
  have e2 := resume_scan_spec
    (setInfo { c with data_manager := true } sid { info with end_time := 0 }) sid
    { info with end_time := 0 } options (getScan_setInfo_self _ _ _) hnd hsub
  rw [hst] at e2
  simp [create_scan, id_exists, get_status, getScan, hl, hsid, hst, e1, e2,
    setInfo_setInfo]

/-- Witness for `create_scan_replaces_existing` at the FINISHED scan
`"u"`. -/
theorem create_scan_replaces_existing_witness :
    getScan cFinished "u" = some infoFinished ∧
    infoFinished.status ≠ ScanStatus.STOPPED ∧ "u" ≠ "" ∧
    (∃ c', create_scan cFinished (some "u") none none none 3 "v" = some ("u", c') ∧
      getScan c' "u" = some
        { results := [], finished_hosts := [], progress := 0, target_progress := [],
          target := emptyScanTarget, vts := none, options := [], start_time := 3,
          end_time := 0, status := ScanStatus.INIT, scan_id := "u" }) := by
  refine ⟨by decide, by decide, by decide, ?_⟩
  exact create_scan_replaces_existing cFinished "u" infoFinished none none none 3 "v"
    (by decide) (by decide) (by decide)

/-- C1 (amended): calling `create_scan` with the id of a STOPPED scan
resumes it: afterwards the status is INIT, `end_time` is 0, the options
are replaced wholesale when the supplied dict is non-empty (kept
otherwise), the same scan id is returned, and the results buffer keeps
exactly the buffered results whose host is NOT in the unfinished set (the
expanded target host list minus the worker-finished hosts).  In
particular every result for a target-listed host that is not finished is
purged; a result whose host lies outside the target host list is kept
even when it is not in the finished-hosts set. -/
theorem resume_purges_unfinished_results (c : ScanCollection) (sid : String)
    (info : ScanInfo) (target : Option ScanTarget) (options : Option Options)
    (vts : Option VTs) (now : Nat) (u : String) (h : getScan c sid = some info)
    (hsid : sid ≠ "") (hst : info.status = ScanStatus.STOPPED)
    (hnd : info.finished_hosts.Nodup)
    (hsub : ∀ x ∈ info.finished_hosts, x ∈ target_str_to_list info.target.hosts) :
    ∃ c', create_scan c (some sid) target options vts now u = some (sid, c') ∧
      getScan c' sid = some
        { info with
          end_time := 0
          status := ScanStatus.INIT
          options := if optTruthy options then options.getD [] else info.options
          results := info.results.filter (fun r =>
            !decide (r.host ∈ info.finished_hosts.foldl (fun acc x => acc.erase x)
              (target_str_to_list info.target.hosts))) } :=
  ⟨setInfo { c with data_manager := true } sid
      { info with
        end_time := 0
        status := ScanStatus.INIT
        options := if optTruthy options then options.getD [] else info.options
        results := info.results.filter (fun r =>
          !decide (r.host ∈ info.finished_hosts.foldl (fun acc x => acc.erase x)
            (target_str_to_list info.target.hosts))) },
    create_scan_resume_spec c sid info target options vts now u h hsid hst hnd hsub,
    getScan_setInfo_self _ _ _⟩

/-- Witness for `resume_purges_unfinished_results` at the STOPPED scan
`"s"` with non-empty replacement options. -/
theorem resume_purges_unfinished_results_witness :
    getScan cStopped "s" = some infoStopped ∧ "s" ≠ "" ∧
    infoStopped.status = ScanStatus.STOPPED ∧
    (∃ c', create_scan cStopped (some "s") none (some [("new", "2")]) none 9 "x" =
        some ("s", c') ∧
      getScan c' "s" = some
        { infoStopped with
          end_time := 0
          status := ScanStatus.INIT
          options := if optTruthy (some [("new", "2")]) then
              (some [("new", "2")]).getD [] else infoStopped.options
          results := infoStopped.results.filter (fun r =>
            !decide (r.host ∈ infoStopped.finished_hosts.foldl
              (fun acc x => acc.erase x)
              (target_str_to_list infoStopped.target.hosts))) }) :=
  ⟨by decide, by decide, by decide,
    resume_purges_unfinished_results cStopped "s" infoStopped none
      (some [("new", "2")]) none 9 "x" (by decide) (by decide) (by decide)
      (by decide) (by decide)⟩

/-- C1 counterexample: the claim "after resume the results sequence
contains exactly those previously-buffered results whose host is in the
finished-hosts set" is false.  In `cStopped` the finished set is `["h1"]`
and the buffer holds results for `h1`, `h2` and `h3`; resuming keeps
`[rH1, rH3]` — the result for the off-target host `h3` is retained even
though `h3` is not in the finished-hosts set, so the surviving buffer is
not `[rH1]` as the claim demands. -/
theorem resume_keeps_offtarget_result :
    get_status cStopped "s" = some ScanStatus.STOPPED ∧
    (create_scan cStopped (some "s") none none none 9 "x").map
        (fun r => (getScan r.2 "s").map (fun i => i.results)) =
      some (some [rH1, rH3]) ∧
    "h3" ∉ infoStopped.finished_hosts ∧
    ([rH1, rH3] ≠ [rH1]) := by
  refine ⟨by decide, by decide, by decide, by decide⟩

/-- C2: for every scan present in the registry, `calculate_target_progress`
divides the sum of the per-host progress percentages by the number of
expanded target hosts minus the number of excluded hosts that remain after
removing the client-declared finished hosts from the exclude list, and
raises `ZeroDivisionError` (it does not return a default) when that
denominator is zero. -/
theorem calculate_target_progress_spec (c : ScanCollection) (sid : String)
    (info : ScanInfo) (h : getScan c sid = some info) :
    ((((target_str_to_list info.target.hosts).length : Int) -
        ((simplify_exclude (target_str_to_list info.target.exclude_hosts)
          (target_str_to_list info.target.finished_hosts)).length : Int)) ≠ 0 →
      calculate_target_progress c sid =
        .ok ((((info.target_progress.map (fun p => p.2)).sum : Int) : Rat) /
          ((((target_str_to_list info.target.hosts).length : Int) -
            ((simplify_exclude (target_str_to_list info.target.exclude_hosts)
              (target_str_to_list info.target.finished_hosts)).length : Int) :
            Int) : Rat))) ∧
    ((((target_str_to_list info.target.hosts).length : Int) -
        ((simplify_exclude (target_str_to_list info.target.exclude_hosts)
          (target_str_to_list info.target.finished_hosts)).length : Int)) = 0 →
      calculate_target_progress c sid = .error PyError.ZeroDivisionError) := by
  have hl : c.scans_table.lookup sid = some info := h
  have hlen : (if (simplify_exclude (target_str_to_list info.target.exclude_hosts)
        (target_str_to_list info.target.finished_hosts)) ≠ [] then
      ((simplify_exclude (target_str_to_list info.target.exclude_hosts)
        (target_str_to_list info.target.finished_hosts)).length : Int) else 0) =
      ((simplify_exclude (target_str_to_list info.target.exclude_hosts)
        (target_str_to_list info.target.finished_hosts)).length : Int) := by
    cases simplify_exclude (target_str_to_list info.target.exclude_hosts)
      (target_str_to_list info.target.finished_hosts) <;> simp
  constructor
  · intro hden
    simp [calculate_target_progress, hl, hlen, hden]
  · intro hden
    simp [calculate_target_progress, hl, hlen, hden]

/-- Witness for `calculate_target_progress_spec`: the spec's example — 4
hosts, `h1` excluded and not finished, progress 50 and 100 for `h2` and
`h3` — yields `(50 + 100) / (4 - 1) = 50`. -/
theorem calculate_target_progress_spec_witness :
    getScan cProgress "u" = some infoProgress ∧
    ((((target_str_to_list infoProgress.target.hosts).length : Int) -
      ((simplify_exclude (target_str_to_list infoProgress.target.exclude_hosts)
        (target_str_to_list infoProgress.target.finished_hosts)).length : Int)) ≠ 0) ∧
    calculate_target_progress cProgress "u" = .ok 50 := by
  refine ⟨by decide, by decide, ?_⟩
  have H := (calculate_target_progress_spec cProgress "u" infoProgress (by decide)).1
    (by decide)
  rw [H]
  norm_num [infoProgress, infoBase, target_str_to_list, simplify_exclude]

/-- C3 (amended): `results_iterator` behaves as a FIFO buffer: with
`pop_res` false it returns all current results and leaves the stored
sequence unchanged (whatever `max_res` is); with `pop_res` true and
`max_res` unset it returns all results in order and clears the buffer;
with `pop_res` true and `max_res` set to a positive `n` it returns exactly
the first `n` results in original order and leaves exactly the remainder;
but `max_res` set to `0` is falsy in Python and behaves like unset — it
returns ALL results and clears the buffer. -/
theorem results_iterator_drain_spec (c : ScanCollection) (sid : String)
    (info : ScanInfo) (h : getScan c sid = some info) :
    (∀ m, results_iterator c sid false m = some (info.results, c)) ∧
    (results_iterator c sid true none =
      some (info.results, setInfo c sid { info with results := [] })) ∧
    (results_iterator c sid true (some 0) =
      some (info.results, setInfo c sid { info with results := [] })) ∧
    (∀ n : Int, 0 < n →
      results_iterator c sid true (some n) =
        some (info.results.take n.toNat,
          setInfo c sid { info with results := info.results.drop n.toNat })) := by
  have hl : c.scans_table.lookup sid = some info := h
  refine ⟨?_, ?_, ?_, ?_⟩
  · intro m
    simp [results_iterator, hl]
  · simp [results_iterator, hl, maxTruthy]
  · simp [results_iterator, hl, maxTruthy]
  · intro n hn
    have hne : (n != 0) = true := bne_iff_ne.mpr (by omega)
    simp [results_iterator, hl, maxTruthy, hne, pySliceTake, pySliceDrop, le_of_lt hn]

/-- Witness for `results_iterator_drain_spec`: the spec's example — a scan
with 5 buffered results drained with `pop` and `max = 2` returns the first
2 and leaves the remaining 3. -/
theorem results_iterator_drain_spec_witness :
    getScan cFive "u" = some infoFive ∧ (0 : Int) < 2 ∧
    results_iterator cFive "u" true (some 2) =
      some (infoFive.results.take (2 : Int).toNat,
        setInfo cFive "u"
          { infoFive with results := infoFive.results.drop (2 : Int).toNat }) ∧
    (infoFive.results.take (2 : Int).toNat).length = 2 ∧
    (infoFive.results.drop (2 : Int).toNat).length = 3 :=
  ⟨by decide, by decide,
    (results_iterator_drain_spec cFive "u" infoFive (by decide)).2.2.2 2 (by decide),
    by decide, by decide⟩

/-- C3 counterexample: the claim "with pop true and max set it returns
exactly the first `max` results and leaves exactly the remaining results"
is false for `max = 0` (set but falsy in Python): on a scan holding one
buffered result, the call returns that result (not the first 0 = no
results) and clears the buffer (instead of leaving all results). -/
theorem results_iterator_max_zero :
    (results_iterator cWithResult "u" true (some 0)).map (fun pr => pr.1) =
      some [rSample] ∧
    (results_iterator cWithResult "u" true (some 0)).map
        (fun pr => (getScan pr.2 "u").map (fun i => i.results)) =
      some (some []) ∧
    some [rSample] ≠ some (List.take (0 : Int).toNat [rSample]) := by decide

/-- C8: a `start_scan` request carrying a non-empty, non-UUID-formatted
`scan_id` attribute is rejected with a command-scoped error
(`command = "start_scan"`), and the registry is returned entirely
unchanged — no record is created or modified before the rejection. -/
theorem start_scan_invalid_uuid_rejected (c : ScanCollection)
    (req : StartScanRequest) (now : Nat) (u : String) (sid : String)
    (hsid : req.scan_id = some sid) (hne : sid ≠ "")
    (hbad : valid_uuid sid = false) :
    ∃ e, StartScan_handle_xml c req now u = .cmd_error e c ∧
      e.command = "start_scan" := by
  have hinv : invalid_scan_id req.scan_id = true := by
    simp [invalid_scan_id, hsid, hbad, bne_iff_ne.mpr hne]
  cases hres : resolve_scan_target req with
  | none =>
    exact ⟨⟨"No targets or ports", "start_scan"⟩,
      by simp [StartScan_handle_xml, hres], rfl⟩
  | some tgt =>
    exact ⟨⟨"Invalid scan_id UUID", "start_scan"⟩,
      by simp [StartScan_handle_xml, hres, hinv], rfl⟩

/-- Witness for `start_scan_invalid_uuid_rejected` at the request
`reqBadId`. -/
theorem start_scan_invalid_uuid_rejected_witness :
    reqBadId.scan_id = some "not-a-uuid" ∧ "not-a-uuid" ≠ "" ∧
    valid_uuid "not-a-uuid" = false ∧
    (∃ e, StartScan_handle_xml cBase reqBadId 5 "w" = .cmd_error e cBase ∧
      e.command = "start_scan") :=
  ⟨rfl, by decide, by decide,
    start_scan_invalid_uuid_rejected cBase reqBadId 5 "w" "not-a-uuid" rfl
      (by decide) (by decide)⟩

/-- Under the resume conditions — including that the dry-run test does not
raise — the post-validation tail of the handler answers `200/OK` with the
resumed scan's id. -/
theorem handle_create_resume (c : ScanCollection) (req : StartScanRequest)
    (params : Options) (vtl : VTs) (now : Nat) (u : String) (sid : String)
    (info : ScanInfo) (b : Bool) (hsid : req.scan_id = some sid) (hne : sid ≠ "")
    (hdry : dry_run_requested params = some b)
    (h : getScan c sid = some info) (hst : info.status = ScanStatus.STOPPED)
    (hnd : info.finished_hosts.Nodup)
    (hsub : ∀ x ∈ info.finished_hosts, x ∈ target_str_to_list info.target.hosts) :
    ∃ c', StartScan_handle_create c req params vtl now u =
      .ok ⟨"start_scan", 200, "OK", some sid⟩ c' := by
  have hcr := create_scan_resume_spec c sid info (resolve_scan_target req)
    (if b then none else some (process_scan_params params))
    (some vtl) now u h hne hst hnd hsub
  refine ⟨setInfo { c with data_manager := true } sid
      { info with
        end_time := 0
        status := ScanStatus.INIT
        options := if optTruthy (if b then none
              else some (process_scan_params params)) then
            (if b then none
              else some (process_scan_params params)).getD []
          else info.options
        results := info.results.filter (fun r =>
          !decide (r.host ∈ info.finished_hosts.foldl (fun acc x => acc.erase x)
            (target_str_to_list info.target.hosts))) }, ?_⟩
  simp only [StartScan_handle_create, daemon_create_scan, hsid, hdry]
  rw [hcr]
  simp [hne]

/-- C6 (amended): a `start_scan` request whose create call resolves to a
resume (the supplied scan id exists with status STOPPED, and the request
survives validation and the dry-run `int()` test so that the create call
is reached at all) is answered with a `200/OK` response carrying the scan
id, NOT with `100/Continue`; the handler only emits `100/Continue` when
the create call returns no scan id, which the registry's create never
does for a resume. -/
theorem start_scan_resume_returns_ok (c : ScanCollection) (req : StartScanRequest)
    (now : Nat) (u : String) (sid : String) (info : ScanInfo) (tgt : ScanTarget)
    (params : Options) (b : Bool) (hsid : req.scan_id = some sid) (hne : sid ≠ "")
    (hval : valid_uuid sid = true) (hres : resolve_scan_target req = some tgt)
    (hsp : req.scanner_params = some params)
    (hdry : dry_run_requested (preprocess_scan_params params) = some b)
    (hvt : req.vt_selection ≠ some ([] : VTs)) (h : getScan c sid = some info)
    (hst : info.status = ScanStatus.STOPPED) (hnd : info.finished_hosts.Nodup)
    (hsub : ∀ x ∈ info.finished_hosts, x ∈ target_str_to_list info.target.hosts) :
    ∃ c', StartScan_handle_xml c req now u =
      .ok ⟨"start_scan", 200, "OK", some sid⟩ c' := by
  have hinv : invalid_scan_id req.scan_id = false := by
    simp [invalid_scan_id, hsid, hval]
  cases hvtsel : req.vt_selection with
  | none =>
    obtain ⟨c', hc⟩ := handle_create_resume c req (preprocess_scan_params params)
      [] now u sid info b hsid hne hdry h hst hnd hsub
    exact ⟨c', by simp [StartScan_handle_xml, hres, hinv, hsp, hvtsel, hc]⟩
  | some vtl =>
    have hlen : ¬(vtl.length = 0) := by
      rw [List.length_eq_zero]
      intro e
      exact hvt (by rw [hvtsel, e])
    obtain ⟨c', hc⟩ := handle_create_resume c req (preprocess_scan_params params)
      vtl now u sid info b hsid hne hdry h hst hnd hsub
    exact ⟨c', by simp [StartScan_handle_xml, hres, hinv, hsp, hvtsel, hlen, hc]⟩

/-- Witness for `start_scan_resume_returns_ok` at the request `reqResume`
against the registry holding the STOPPED scan `uuidStopped`. -/
theorem start_scan_resume_returns_ok_witness :
    reqResume.scan_id = some uuidStopped ∧ uuidStopped ≠ "" ∧
    valid_uuid uuidStopped = true ∧
    reqResume.scanner_params = some [] ∧
    dry_run_requested (preprocess_scan_params []) = some false ∧
    reqResume.vt_selection ≠ some ([] : VTs) ∧
    getScan cStoppedU uuidStopped = some infoStoppedU ∧
    infoStoppedU.status = ScanStatus.STOPPED ∧
    (∃ c', StartScan_handle_xml cStoppedU reqResume 7 "w" =
      .ok ⟨"start_scan", 200, "OK", some uuidStopped⟩ c') :=
  ⟨rfl, by decide, by decide, rfl, by decide, by decide, by decide, by decide,
    start_scan_resume_returns_ok cStoppedU reqResume 7 "w" uuidStopped infoStoppedU
      { hosts := ["h1", "h2"], ports := "80", credentials := [], exclude_hosts := [],
        finished_hosts := [], options := [] }
      [] false rfl (by decide) (by decide) rfl rfl (by decide) (by decide)
      (by decide) (by decide) (by decide) (by decide)⟩

/-- C6 counterexample: the claim "a create call that resolves to a resume
returns a 100/Continue partial response rather than 200/OK" is false: the
request `reqResume` names the STOPPED scan `uuidStopped` (so its create
resolves to a resume), yet the handler answers with code 200, not 100. -/
theorem start_scan_resume_not_continue :
    get_status cStoppedU uuidStopped = some ScanStatus.STOPPED ∧
    outcome_code (StartScan_handle_xml cStoppedU reqResume 7 "w") = 200 ∧
    (200 : Nat) ≠ 100 := by decide

end Ospd
